import Mathlib

/-!
Verification development for the Orin undervoltage-protection daemon
(`undervoltage_protection.py`).  The source is shallowly embedded: pure
functions become Lean functions over `ℚ`, the per-cycle side effects
(file reads, subprocess probes) become explicit environment values fed
to each cycle, and the mutable instance fields (`undervoltage_cnt`,
`_prev_idle`/`_prev_total`) become explicit state threaded through the
loop.  The unbounded `while True` loop is analysed on an arbitrary
finite list of cycle environments.
-/

namespace UVP

/-! ### Character/string helpers (embedding of the regex and `isdigit` uses) -/

/-- `startsWith pat s` : `pat` is a leading segment of `s`. -/
def startsWith : List Char → List Char → Bool
  | [], _ => true
  | _ :: _, [] => false
  | p :: ps, c :: cs => p == c && startsWith ps cs

/-- Substring test, used for Python's `'VDD' in label` check. -/
def containsSub (pat : List Char) : List Char → Bool
  | [] => startsWith pat []
  | c :: cs => startsWith pat (c :: cs) || containsSub pat cs

/-- Longest leading run of decimal digits. -/
def takeDigits : List Char → List Char
  | [] => []
  | c :: cs => if c.isDigit then c :: takeDigits cs else []

/-- Numeric value of a list of decimal digits (most significant first). -/
def digitsToNat (ds : List Char) : ℕ :=
  ds.foldl (fun a c => 10 * a + (c.toNat - 48)) 0

/-- Embedding of `re.search(r'(\d+)', s)`: the first maximal run of digits
in `s`, as a natural number; `none` when `s` has no digit. -/
def firstNat : List Char → Option ℕ
  | [] => none
  | c :: cs => if c.isDigit then some (digitsToNat (c :: takeDigits cs)) else firstNat cs

/-- Embedding of Python's `'/' in load_str`. -/
def hasSlash (s : List Char) : Bool := s.any (· == '/')

/-- Embedding of Python's `str.isdigit()` (empty string is not a digit string). -/
def allDigits (s : List Char) : Bool := !s.isEmpty && s.all Char.isDigit

/-! ### Corrector (source lines 164-168) -/

/-- `VoltageMonitor.correct_voltage`: the fixed linear correction model.
The implemented GPU coefficient is `0.01478` (the code comment states
`0.01278`; the code is the authority here). -/
def correct_voltage (raw_voltage cpu_usage gpu_usage : ℚ) : ℚ :=
  raw_voltage + (395 / 100000) * cpu_usage + (1478 / 100000) * gpu_usage + 560 / 1000

/-! ### CPU load estimator (source lines 49-78)

The `/proc/stat` read outcome of a cycle is an `Option (List ℤ)`:
`none` models any read/parse exception, `some times` the parsed counter
list `cpu_times`.  The instance fields `_prev_idle`/`_prev_total` become
an explicit `Option (ℤ × ℤ)` snapshot threaded in and out. -/

/-- `VoltageMonitor.get_cpu_usage`, returning the reported percentage and
the updated `(_prev_idle, _prev_total)` snapshot.  A counter list with
fewer than four entries raises `IndexError` at `cpu_times[3]`, which the
`except` clause turns into `0.0` with the snapshot untouched. -/
def get_cpu_usage (prev : Option (ℤ × ℤ)) (cur : Option (List ℤ)) :
    ℚ × Option (ℤ × ℤ) :=
  match cur with
  | none => (0, prev)
  | some times =>
    match times[3]? with
    | none => (0, prev)
    | some idle_time =>
      let total_time := times.sum
      match prev with
      | none => (0, some (idle_time, total_time))
      | some (prev_idle, prev_total) =>
        let idle_delta := idle_time - prev_idle
        let total_delta := total_time - prev_total
        if total_delta = 0 then (0, some (idle_time, total_time))
        else
          let cpu_usage : ℚ := 100 * (1 - (idle_delta : ℚ) / (total_delta : ℚ))
          (max 0 (min 100 cpu_usage), some (idle_time, total_time))

/-! ### GPU load estimator (source lines 80-162)

Each probe's externally observable outcome is a field of `GpuEnv`:

* `nvidia`: `some (rc, out)` when the `nvidia-smi` subprocess returns,
  with return code `rc` and stripped stdout `out`; `none` when the call
  raises (binary missing, timeout, ...).
* `tegra`: result of the `GR3D_FREQ (\d+)%` regex match over the
  sampled `tegrastats` output; `none` when the process fails or no line
  matches.
* `sysfs`: the outcome at each of the three candidate load paths, in
  the listed order.
* `jtop`: `some v` when `jtop --json` returns code 0 and the JSON
  payload has a `gpu.val` field parsing to `v`; `none` otherwise. -/

/-- Outcome of probing one candidate sysfs load path. -/
inductive FileProbe
  /-- `os.path.exists` is false: the loop moves to the next path. -/
  | absent
  /-- the path exists but opening/reading it raises, aborting method 3. -/
  | readError
  /-- the path exists and reads (stripped) as `s`. -/
  | content (s : List Char)
deriving DecidableEq

/-- Per-cycle outcomes of the four GPU probes. -/
structure GpuEnv where
  nvidia : Option (ℤ × List Char)
  tegra : Option ℕ
  sysfs : List FileProbe
  jtop : Option ℚ
deriving DecidableEq

/-- Method 1 (lines 83-94): accept the `nvidia-smi` output only when the
return code is 0 and the stripped stdout is a plain digit string. -/
def gpuMethod1 (nvidia : Option (ℤ × List Char)) : Option ℚ :=
  match nvidia with
  | none => none
  | some (rc, out) =>
    if rc = 0 && allDigits out then some (digitsToNat out : ℚ) else none

/-- Method 3 (lines 120-143): walk the candidate paths; on the first
existing readable path whose content has an embedded integer, apply the
`/100.0*100.0` adjustment when the text has a slash and the value
exceeds 100, and return the value capped at 100.  A read exception
aborts the whole method. -/
def gpuMethod3 : List FileProbe → Option ℚ
  | [] => none
  | FileProbe.absent :: rest => gpuMethod3 rest
  | FileProbe.readError :: _ => none
  | FileProbe.content s :: rest =>
    match firstNat s with
    | none => gpuMethod3 rest
    | some n =>
      let gpu_usage : ℚ := (n : ℚ)
      let gpu_usage := if hasSlash s && decide (gpu_usage > 100)
        then gpu_usage / 100 * 100 else gpu_usage
      some (min 100 gpu_usage)

/-- `VoltageMonitor.get_gpu_usage`: the ordered fallback chain over the
four probes, defaulting to `0.0` when every probe fails. -/
def get_gpu_usage (env : GpuEnv) : ℚ :=
  match gpuMethod1 env.nvidia with
  | some v => v
  | none =>
    match env.tegra with
    | some n => (n : ℚ)
    | none =>
      match gpuMethod3 env.sysfs with
      | some v => v
      | none =>
        match env.jtop with
        | some v => v
        | none => 0

/-! ### Voltage sampler (source lines 170-205) -/

/-- One discovered `in*_label`/`in*_input` pair.  `label = none` models a
label-read exception (`continue`); `input = none` models a missing,
malformed or unreadable `in*_input` file (also `continue`). -/
structure Channel where
  label : Option (List Char)
  input : Option ℤ
deriving DecidableEq

/-- The per-channel voltages (volts) collected by the loop at lines
172-191: channels with a failed label read, a label not containing
`VDD`, or a failed input read are skipped; a raw millivolt integer `raw`
contributes `raw / 1000`. -/
def channelVoltages : List Channel → List ℚ
  | [] => []
  | c :: cs =>
    match c.label with
    | none => channelVoltages cs
    | some lbl =>
      if containsSub ['V', 'D', 'D'] lbl then
        match c.input with
        | none => channelVoltages cs
        | some raw => (raw : ℚ) / 1000 :: channelVoltages cs
      else channelVoltages cs

/-- The `CorrectedReading` tuple returned on a successful cycle. -/
structure Reading where
  raw : ℚ
  corrected : ℚ
  cpu : ℚ
  gpu : ℚ
deriving DecidableEq

/-- External inputs of one monitoring cycle. -/
structure CycleEnv where
  channels : List Channel
  cpu : Option (List ℤ)
  gpu : GpuEnv
deriving DecidableEq

/-- `VoltageMonitor.read_mean_voltage`: collect the channel voltages; if
none, report no reading (the Python `(None, None, 0.0, 0.0)`) without
touching the CPU snapshot; otherwise take `statistics.mean`, sample the
load estimators and apply the correction. -/
def read_mean_voltage (prev : Option (ℤ × ℤ)) (env : CycleEnv) :
    Option Reading × Option (ℤ × ℤ) :=
  let voltages := channelVoltages env.channels
  if voltages.isEmpty then (none, prev)
  else
    let raw_mean := voltages.sum / (voltages.length : ℚ)
    let p := get_cpu_usage prev env.cpu
    let gpu_usage := get_gpu_usage env.gpu
    (some ⟨raw_mean, correct_voltage raw_mean p.1 gpu_usage, p.1, gpu_usage⟩, p.2)

/-! ### Monitor loop (source lines 207-241) -/

/-- `VoltageMonitor.shutdown_system`: whether the real OS shutdown
command is issued (it is skipped entirely in debug mode). -/
def shutdown_system (debug : Bool) : Bool := !debug

/-- Process-lifetime mutable state of the loop: `undervoltage_cnt` and
the CPU-estimator snapshot. -/
structure MonitorState where
  cnt : ℕ
  prev : Option (ℤ × ℤ)
deriving DecidableEq

/-- One iteration of the `while True` body: returns the updated state and
whether `shutdown_system` was invoked (which in the source is followed by
`return`).  In debug mode the reading is only printed; the debounce
branch (lines 227-234) runs only in normal mode. -/
def monitorCycle (debug : Bool) (threshold : ℚ) (limit : ℕ)
    (st : MonitorState) (env : CycleEnv) : MonitorState × Bool :=
  match read_mean_voltage st.prev env with
  | (none, prev') => (⟨st.cnt, prev'⟩, false)
  | (some r, prev') =>
    if debug then (⟨st.cnt, prev'⟩, false)
    else if r.corrected < threshold then
      let c := st.cnt + 1
      (⟨c, prev'⟩, decide (limit ≤ c))
    else (⟨0, prev'⟩, false)

/-- `VoltageMonitor.monitor`, run on a finite list of cycle environments:
returns how many times `shutdown_system` was invoked, the suffix of
environments never sampled (because the loop returned first), and the
final state. -/
def monitor (debug : Bool) (threshold : ℚ) (limit : ℕ) :
    MonitorState → List CycleEnv → ℕ × List CycleEnv × MonitorState
  | st, [] => (0, [], st)
  | st, e :: rest =>
    let p := monitorCycle debug threshold limit st e
    if p.2 then (1, rest, p.1)
    else monitor debug threshold limit p.1 rest

/-- Per-cycle trace of `monitor`: the counter value and shutdown flag
after each executed cycle (the trace stops when the loop returns). -/
def monitorTrace (debug : Bool) (threshold : ℚ) (limit : ℕ) :
    MonitorState → List CycleEnv → List (ℕ × Bool)
  | _, [] => []
  | st, e :: rest =>
    let p := monitorCycle debug threshold limit st e
    (p.1.cnt, p.2) ::
      (if p.2 then [] else monitorTrace debug threshold limit p.1 rest)

/-- Concrete cycle environment: one channel labelled `VDD_IN` reading
`mv` millivolts, a failed `/proc/stat` read (so CPU reports 0) and all
GPU probes failing (so GPU reports 0).  Its corrected voltage is
`mv / 1000 + 0.560`. -/
def mkEnv (mv : ℤ) : CycleEnv :=
  ⟨[⟨some "VDD_IN".toList, some mv⟩], none, ⟨none, none, [], none⟩⟩

/-- Concrete cycle environment in which no channel is discovered. -/
def emptyEnv : CycleEnv := ⟨[], none, ⟨none, none, [], none⟩⟩

/-! ### Helper lemmas -/

/-- Evaluation of a `mkEnv` cycle's reading. -/
theorem read_mkEnv (prev : Option (ℤ × ℤ)) (mv : ℤ) :
    read_mean_voltage prev (mkEnv mv) =
      (some ⟨(mv : ℚ) / 1000, (mv : ℚ) / 1000 + 560 / 1000, 0, 0⟩, prev) := by
  simp +decide only [read_mean_voltage, mkEnv, channelVoltages, containsSub, startsWith,
    get_cpu_usage, get_gpu_usage, gpuMethod1, gpuMethod3, correct_voltage]
  norm_num

/-- Evaluation of a normal-mode cycle on a `mkEnv` environment. -/
theorem cycle_mkEnv (th : ℚ) (lim : ℕ) (st : MonitorState) (mv : ℤ) :
    monitorCycle false th lim st (mkEnv mv) =
      if (mv : ℚ) / 1000 + 560 / 1000 < th then
        (⟨st.cnt + 1, st.prev⟩, decide (lim ≤ st.cnt + 1))
      else (⟨0, st.prev⟩, false) := by
  simp only [monitorCycle, read_mkEnv, Bool.false_eq_true, if_false]

/-- Case analysis of one normal-mode cycle: the counter is kept (no
reading), reset to 0 (in-range reading), or incremented by one with the
shutdown flag set exactly when the new value reaches the limit. -/
theorem monitorCycle_false_spec (th : ℚ) (lim : ℕ) (st : MonitorState) (env : CycleEnv) :
    ((monitorCycle false th lim st env).1.cnt = st.cnt ∧
      (monitorCycle false th lim st env).2 = false) ∨
    ((monitorCycle false th lim st env).1.cnt = 0 ∧
      (monitorCycle false th lim st env).2 = false) ∨
    ((monitorCycle false th lim st env).1.cnt = st.cnt + 1 ∧
      (monitorCycle false th lim st env).2 = decide (lim ≤ st.cnt + 1)) := by
  rcases h : read_mean_voltage st.prev env with ⟨_ | r, p⟩
  · simp [monitorCycle, h]
  · simp only [monitorCycle, h, Bool.false_eq_true, if_false]
    split <;> simp

/-- A non-shutdown cycle keeps the counter below the limit. -/
theorem monitorCycle_false_inv (th : ℚ) (lim : ℕ) (st : MonitorState) (env : CycleEnv)
    (hcnt : st.cnt < lim)
    (hsd : (monitorCycle false th lim st env).2 = false) :
    (monitorCycle false th lim st env).1.cnt < lim := by
  rcases monitorCycle_false_spec th lim st env with ⟨h1, _⟩ | ⟨h1, _⟩ | ⟨h1, h2⟩
  · omega
  · omega
  · rw [h2] at hsd
    simp only [decide_eq_false_iff_not] at hsd
    omega

/-- A shutdown cycle started below the limit ends with the counter
exactly at the limit. -/
theorem monitorCycle_false_shutdown_cnt (th : ℚ) (lim : ℕ) (st : MonitorState)
    (env : CycleEnv) (hcnt : st.cnt < lim)
    (hsd : (monitorCycle false th lim st env).2 = true) :
    (monitorCycle false th lim st env).1.cnt = lim := by
  rcases monitorCycle_false_spec th lim st env with ⟨_, h2⟩ | ⟨_, h2⟩ | ⟨h1, h2⟩
  · rw [h2] at hsd; exact absurd hsd (by simp)
  · rw [h2] at hsd; exact absurd hsd (by simp)
  · rw [h2] at hsd
    simp only [decide_eq_true_eq] at hsd
    omega

/-- The shutdown invocation count of a run is 0 or 1. -/
theorem monitor_fst_le_one (debug : Bool) (th : ℚ) (lim : ℕ) :
    ∀ (envs : List CycleEnv) (st : MonitorState),
      (monitor debug th lim st envs).1 ≤ 1 := by
  intro envs
  induction envs with
  | nil => intro st; simp [monitor]
  | cons e rest ih =>
    intro st
    simp only [monitor]
    split
    · exact le_refl 1
    · exact ih _

/-- If the run invoked shutdown and started below the limit, the final
counter equals the limit. -/
theorem monitor_shutdown_cnt (th : ℚ) (lim : ℕ) :
    ∀ (envs : List CycleEnv) (st : MonitorState), st.cnt < lim →
      (monitor false th lim st envs).1 = 1 →
      (monitor false th lim st envs).2.2.cnt = lim := by
  intro envs
  induction envs with
  | nil => intro st _ h; simp [monitor] at h
  | cons e rest ih =>
    intro st hcnt h
    by_cases hsd : (monitorCycle false th lim st e).2 = true
    · simp only [monitor, hsd, if_true]
      exact monitorCycle_false_shutdown_cnt th lim st e hcnt hsd
    · rw [Bool.not_eq_true] at hsd
      simp only [monitor, hsd, Bool.false_eq_true, if_false] at h ⊢
      exact ih _ (monitorCycle_false_inv th lim st e hcnt hsd) h

/-- A run that invoked shutdown ignores any further cycle inputs: the
loop returned in the shutdown cycle. -/
theorem monitor_append_of_shutdown (debug : Bool) (th : ℚ) (lim : ℕ) :
    ∀ (envs rest : List CycleEnv) (st : MonitorState) (rem : List CycleEnv)
      (fin : MonitorState),
      monitor debug th lim st envs = (1, rem, fin) →
      monitor debug th lim st (envs ++ rest) = (1, rem ++ rest, fin) := by
  intro envs
  induction envs with
  | nil => intro rest st rem fin h; simp [monitor] at h
  | cons e tl ih =>
    intro rest st rem fin h
    by_cases hsd : (monitorCycle debug th lim st e).2 = true
    · simp only [monitor, hsd, if_true] at h ⊢
      obtain ⟨_, h2, h3⟩ := Prod.mk.injEq .. ▸ h
      cases h
      simp [List.cons_append, monitor, hsd]
    · rw [Bool.not_eq_true] at hsd
      simp only [List.cons_append, monitor, hsd, Bool.false_eq_true, if_false] at h ⊢
      exact ih rest _ rem fin h

/-- A debug-mode cycle never signals shutdown and never changes the
counter. -/
theorem monitorCycle_true_spec (th : ℚ) (lim : ℕ) (st : MonitorState) (env : CycleEnv) :
    (monitorCycle true th lim st env).1.cnt = st.cnt ∧
    (monitorCycle true th lim st env).2 = false := by
  rcases h : read_mean_voltage st.prev env with ⟨_ | r, p⟩ <;> simp [monitorCycle, h]

/-! ### Claim theorems -/

/-- C3: the corrector is the pure linear model
`raw + 0.00395 * cpu_percent + 0.01478 * gpu_percent + 0.560` on every
input triple; in particular `correct(10, 0, 0) = 10.56` and
`correct(10, 100, 100) = 12.433`. -/
theorem C3_correct_voltage_pure :
    (∀ raw cpu gpu : ℚ,
      correct_voltage raw cpu gpu = raw + 0.00395 * cpu + 0.01478 * gpu + 0.560) ∧
    correct_voltage 10 0 0 = 10.56 ∧ correct_voltage 10 100 100 = 12.433 := by
  refine ⟨fun raw cpu gpu => ?_, ?_, ?_⟩ <;> norm_num [correct_voltage]

/-- C4: with at least one successfully read channel the cycle's raw
aggregate is the arithmetic mean of the collected per-channel voltages;
with none, the sampler reports no reading (no error, CPU snapshot
untouched); and a channel whose label read or input read failed is
simply excluded from the collected list. -/
theorem C4_mean_aggregate :
    (∀ (prev : Option (ℤ × ℤ)) (env : CycleEnv), channelVoltages env.channels ≠ [] →
      ∃ r, (read_mean_voltage prev env).1 = some r ∧
        r.raw = (channelVoltages env.channels).sum /
          ((channelVoltages env.channels).length : ℚ)) ∧
    (∀ (prev : Option (ℤ × ℤ)) (env : CycleEnv), channelVoltages env.channels = [] →
      read_mean_voltage prev env = (none, prev)) ∧
    (∀ (c : Channel) (cs : List Channel), c.label = none ∨ c.input = none →
      channelVoltages (c :: cs) = channelVoltages cs) := by
  refine ⟨?_, ?_, ?_⟩
  · intro prev env h
    have hf : (channelVoltages env.channels).isEmpty = false := by
      rcases hv : channelVoltages env.channels with _ | ⟨a, l⟩
      · exact absurd hv h
      · rfl
    refine ⟨⟨(channelVoltages env.channels).sum / ((channelVoltages env.channels).length : ℚ),
      correct_voltage ((channelVoltages env.channels).sum /
        ((channelVoltages env.channels).length : ℚ))
        (get_cpu_usage prev env.cpu).1 (get_gpu_usage env.gpu),
      (get_cpu_usage prev env.cpu).1, get_gpu_usage env.gpu⟩, ?_, rfl⟩
    simp only [read_mean_voltage, hf, Bool.false_eq_true, if_false]
  · intro prev env h
    simp [read_mean_voltage, h]
  · intro c cs h
    rcases c with ⟨_ | lbl, _ | v⟩
    · rfl
    · rfl
    · simp only [channelVoltages]
      split <;> rfl
    · simp at h

/-- C4 witness at a concrete channel list: the failed-input channel is
excluded and the mean of 9.8 V and 10.2 V is 10 V. -/
theorem C4_mean_aggregate_witness :
    (∃ r, (read_mean_voltage none
        ⟨[⟨some "VDD_IN".toList, some 9800⟩, ⟨some "VDD_CPU".toList, none⟩,
          ⟨some "VDD_SOC".toList, some 10200⟩], none, ⟨none, none, [], none⟩⟩).1 =
        some r ∧ r.raw = 10) ∧
    channelVoltages [⟨some "VDD_CPU".toList, none⟩] = [] := by
  constructor
  · obtain ⟨r, hr, hraw⟩ := C4_mean_aggregate.1 none
      ⟨[⟨some "VDD_IN".toList, some 9800⟩, ⟨some "VDD_CPU".toList, none⟩,
        ⟨some "VDD_SOC".toList, some 10200⟩], none, ⟨none, none, [], none⟩⟩
      (by decide)
    refine ⟨r, hr, ?_⟩
    rw [hraw]
    norm_num [channelVoltages, containsSub, startsWith]
  · exact C4_mean_aggregate.2.2 ⟨some "VDD_CPU".toList, none⟩ [] (Or.inr rfl)

/-- C7: the CPU estimator always reports a value in [0, 100]; with no
stored snapshot it reports exactly 0 for any counter contents while
storing the snapshot; and a zero total delta reports exactly 0. -/
theorem C7_cpu_usage :
    (∀ (prev : Option (ℤ × ℤ)) (cur : Option (List ℤ)),
      0 ≤ (get_cpu_usage prev cur).1 ∧ (get_cpu_usage prev cur).1 ≤ 100) ∧
    (∀ cur, (get_cpu_usage none cur).1 = 0) ∧
    (∀ (times : List ℤ) (idle : ℤ), times[3]? = some idle →
      (get_cpu_usage none (some times)).2 = some (idle, times.sum)) ∧
    (∀ (pidle ptotal : ℤ) (times : List ℤ) (idle : ℤ), times[3]? = some idle →
      times.sum = ptotal →
      (get_cpu_usage (some (pidle, ptotal)) (some times)).1 = 0) := by
  refine ⟨?_, ?_, ?_, ?_⟩
  · intro prev cur
    rcases cur with _ | times
    · simp [get_cpu_usage]
    · rcases h3 : times[3]? with _ | idle
      · simp [get_cpu_usage, h3]
      · rcases prev with _ | ⟨pidle, ptotal⟩
        · simp [get_cpu_usage, h3]
        · simp only [get_cpu_usage, h3]
          split
          · norm_num
          · exact ⟨le_max_left 0 _, max_le (by norm_num) (min_le_left _ _)⟩
  · intro cur
    rcases cur with _ | times
    · simp [get_cpu_usage]
    · rcases h3 : times[3]? with _ | idle <;> simp [get_cpu_usage, h3]
  · intro times idle h3
    simp [get_cpu_usage, h3]
  · intro pidle ptotal times idle h3 hsum
    subst hsum
    simp [get_cpu_usage, h3]

/-- C7 witness at concrete counters: range on a second call, zero on the
first call with the snapshot stored, and zero on a zero total delta. -/
theorem C7_cpu_usage_witness :
    (0 ≤ (get_cpu_usage (some (2, 5)) (some [1, 1, 1, 3, 4])).1 ∧
      (get_cpu_usage (some (2, 5)) (some [1, 1, 1, 3, 4])).1 ≤ 100) ∧
    (get_cpu_usage none (some [1, 1, 1, 3, 4])).1 = 0 ∧
    (get_cpu_usage none (some [1, 1, 1, 3, 4])).2 = some (3, 10) ∧
    (get_cpu_usage (some (0, 10)) (some [1, 2, 3, 4])).1 = 0 := by
  refine ⟨C7_cpu_usage.1 _ _, C7_cpu_usage.2.1 _, ?_, ?_⟩
  · have h := C7_cpu_usage.2.2.1 [1, 1, 1, 3, 4] 3 rfl
    rw [h]
    norm_num
  · exact C7_cpu_usage.2.2.2 0 10 [1, 2, 3, 4] 4 rfl (by norm_num)

/-- C8: a cycle in which no channel yields a valid reading produces no
CorrectedReading and leaves the whole monitor state — counter and CPU
snapshot — unchanged. -/
theorem C8_no_reading_frame (debug : Bool) (th : ℚ) (lim : ℕ) (st : MonitorState)
    (env : CycleEnv) (h : channelVoltages env.channels = []) :
    read_mean_voltage st.prev env = (none, st.prev) ∧
    monitorCycle debug th lim st env = (st, false) := by
  have hr : read_mean_voltage st.prev env = (none, st.prev) := by
    simp [read_mean_voltage, h]
  exact ⟨hr, by simp [monitorCycle, hr]⟩

/-- C8 witness: a cycle with no discovered channel leaves a concrete
mid-run state untouched. -/
theorem C8_no_reading_frame_witness :
    channelVoltages emptyEnv.channels = [] ∧
    monitorCycle false 14 3 ⟨2, some (5, 7)⟩ emptyEnv = (⟨2, some (5, 7)⟩, false) :=
  ⟨rfl, (C8_no_reading_frame false 14 3 ⟨2, some (5, 7)⟩ emptyEnv rfl).2⟩

/-- C5 counterexample: a successful vendor-utility probe reporting `150`
makes the GPU estimator return 150, above 100 — the results of probe
methods 1, 2 and 4 are returned unclamped, so gpu_percent is not always
within [0, 100]. -/
theorem C5_gpu_unclamped_counterexample :
    get_gpu_usage ⟨some (0, "150".toList), none, [], none⟩ = 150 ∧
    ¬ get_gpu_usage ⟨some (0, "150".toList), none, [], none⟩ ≤ 100 := by
  have h : get_gpu_usage ⟨some (0, "150".toList), none, [], none⟩ = 150 := by decide
  refine ⟨h, ?_⟩
  rw [h]
  norm_num

/-- C5 amended: only probe method 3 clamps its result, which always lies
in [0, 100]; the all-probes-fail fallback of 0 is in range as well; the
values of methods 1, 2 and 4 are returned without clamping. -/
theorem C5_gpu_method3_clamped :
    (∀ (ps : List FileProbe) (v : ℚ), gpuMethod3 ps = some v → 0 ≤ v ∧ v ≤ 100) ∧
    (∀ env : GpuEnv, gpuMethod1 env.nvidia = none → env.tegra = none →
      gpuMethod3 env.sysfs = none → env.jtop = none → get_gpu_usage env = 0) := by
  constructor
  · intro ps
    induction ps with
    | nil => intro v h; simp [gpuMethod3] at h
    | cons p rest ih =>
      intro v h
      rcases p with _ | _ | s
      · exact ih v h
      · simp [gpuMethod3] at h
      · rcases hf : firstNat s with _ | n
        · rw [show gpuMethod3 (FileProbe.content s :: rest) = gpuMethod3 rest by
            simp [gpuMethod3, hf]] at h
          exact ih v h
        · simp only [gpuMethod3, hf, Option.some.injEq] at h
          subst h
          refine ⟨le_min (by norm_num) ?_, min_le_left _ _⟩
          split <;> positivity
  · intro env h1 h2 h3 h4
    simp [get_gpu_usage, h1, h2, h3, h4]

/-- C5 amended witness: a method-3 reading of "45%" lies in range, and a
concrete all-fail environment reports 0. -/
theorem C5_gpu_method3_clamped_witness :
    (0 ≤ (45 : ℚ) ∧ (45 : ℚ) ≤ 100) ∧ get_gpu_usage ⟨none, none, [], none⟩ = 0 :=
  ⟨C5_gpu_method3_clamped.1 [FileProbe.content "45%".toList] 45 (by decide),
   C5_gpu_method3_clamped.2 ⟨none, none, [], none⟩ rfl rfl rfl rfl⟩

/-- C6: the GPU estimator consults its probes in the fixed order
vendor utility, statistics sampler, sysfs load paths, JSON helper — the
first success is returned as is, later probes cannot override it, and
only when all four fail is the result exactly 0. -/
theorem C6_gpu_fallback_order (env : GpuEnv) :
    (∀ v, gpuMethod1 env.nvidia = some v → get_gpu_usage env = v) ∧
    (gpuMethod1 env.nvidia = none → ∀ n, env.tegra = some n →
      get_gpu_usage env = (n : ℚ)) ∧
    (gpuMethod1 env.nvidia = none → env.tegra = none →
      ∀ v, gpuMethod3 env.sysfs = some v → get_gpu_usage env = v) ∧
    (gpuMethod1 env.nvidia = none → env.tegra = none → gpuMethod3 env.sysfs = none →
      ∀ v, env.jtop = some v → get_gpu_usage env = v) ∧
    (gpuMethod1 env.nvidia = none → env.tegra = none → gpuMethod3 env.sysfs = none →
      env.jtop = none → get_gpu_usage env = 0) := by
  refine ⟨?_, ?_, ?_, ?_, ?_⟩ <;> intros <;> simp [get_gpu_usage, *]

/-- C6 witness: an environment where the vendor utility reports 37 while
later probes would report other values yields 37; an all-fail
environment yields 0. -/
theorem C6_gpu_fallback_order_witness :
    get_gpu_usage ⟨some (0, "37".toList), some 99, [FileProbe.content "55".toList],
      some 5⟩ = 37 ∧
    get_gpu_usage ⟨none, none, [FileProbe.absent, FileProbe.absent,
      FileProbe.absent], none⟩ = 0 :=
  ⟨(C6_gpu_fallback_order _).1 37 (by decide),
   (C6_gpu_fallback_order _).2.2.2.2 rfl rfl (by decide) rfl⟩

/-- C2: on every cycle with a valid reading the counter becomes the old
count plus one exactly when the corrected voltage is strictly below the
threshold, and resets to 0 whenever it is at or above the threshold (a
threshold-equal reading resets); feeding corrected readings
13.9, 13.9, 14.1, 13.9, 13.9, 13.9 against threshold 14 with limit 3
yields counts 1, 2, 0, 1, 2, 3 with shutdown signalled exactly on the
sixth reading.  The two middle conjuncts identify the corrected
voltages of the `mkEnv` cycle inputs used in the trace. -/
theorem C2_debounce_behaviour :
    (∀ (th : ℚ) (lim : ℕ) (st : MonitorState) (env : CycleEnv) (r : Reading)
      (p : Option (ℤ × ℤ)), read_mean_voltage st.prev env = (some r, p) →
      ((monitorCycle false th lim st env).1.cnt = st.cnt + 1 ↔ r.corrected < th) ∧
      (th ≤ r.corrected → (monitorCycle false th lim st env).1.cnt = 0)) ∧
    (read_mean_voltage none (mkEnv 13340)).1 = some ⟨13.34, 13.9, 0, 0⟩ ∧
    (read_mean_voltage none (mkEnv 13540)).1 = some ⟨13.54, 14.1, 0, 0⟩ ∧
    monitorTrace false 14 3 ⟨0, none⟩
      ([13340, 13340, 13540, 13340, 13340, 13340].map mkEnv) =
      [(1, false), (2, false), (0, false), (1, false), (2, false), (3, true)] := by
  refine ⟨?_, ?_, ?_, ?_⟩
  · intro th lim st env r p h
    simp only [monitorCycle, h, Bool.false_eq_true, if_false]
    constructor
    · constructor
      · intro hc
        by_contra hlt
        rw [if_neg hlt] at hc
        simp at hc
      · intro hlt
        rw [if_pos hlt]
    · intro hge
      rw [if_neg (not_lt.mpr hge)]
  · rw [read_mkEnv]
    norm_num
  · rw [read_mkEnv]
    norm_num
  · norm_num [monitorTrace, cycle_mkEnv]

/-- C2 witness: a 13.9 V corrected reading against threshold 14
increments a zero counter to one. -/
theorem C2_debounce_behaviour_witness :
    (monitorCycle false 14 3 ⟨0, none⟩ (mkEnv 13340)).1.cnt = 0 + 1 :=
  ((C2_debounce_behaviour.1 14 3 ⟨0, none⟩ (mkEnv 13340) ⟨13.34, 13.9, 0, 0⟩ none
      (by rw [read_mkEnv]; norm_num)).1).mpr (by norm_num)

/-- C1: over any normal-mode run from the initial state, the shutdown
collaborator is invoked at most once; when it is invoked the counter has
just reached the limit; a cycle whose counter reaches the limit always
signals shutdown in that same cycle; and once shutdown is invoked the
loop returns immediately, so cycle inputs past that point are never
sampled. -/
theorem C1_shutdown_once (th : ℚ) (lim : ℕ) (hlim : 1 ≤ lim)
    (prev0 : Option (ℤ × ℤ)) (envs : List CycleEnv) :
    (monitor false th lim ⟨0, prev0⟩ envs).1 ≤ 1 ∧
    ((monitor false th lim ⟨0, prev0⟩ envs).1 = 1 →
      (monitor false th lim ⟨0, prev0⟩ envs).2.2.cnt = lim) ∧
    (∀ (st : MonitorState) (env : CycleEnv), st.cnt < lim →
      lim ≤ (monitorCycle false th lim st env).1.cnt →
      (monitorCycle false th lim st env).2 = true) ∧
    (∀ (rest rem : List CycleEnv) (final : MonitorState),
      monitor false th lim ⟨0, prev0⟩ envs = (1, rem, final) →
      monitor false th lim ⟨0, prev0⟩ (envs ++ rest) = (1, rem ++ rest, final)) := by
  refine ⟨monitor_fst_le_one false th lim envs _,
    monitor_shutdown_cnt th lim envs _ (show 0 < lim by omega), ?_, ?_⟩
  · intro st env hcnt hge
    by_contra hsd
    rw [Bool.not_eq_true] at hsd
    exact absurd hge (not_le.mpr (monitorCycle_false_inv th lim st env hcnt hsd))
  · intro rest rem final h
    exact monitor_append_of_shutdown false th lim envs rest _ rem final h

/-- C1 witness: with threshold 14 and limit 1, a single 13.9 V cycle
invokes shutdown with the counter at the limit. -/
theorem C1_shutdown_once_witness :
    (monitor false 14 1 ⟨0, none⟩ [mkEnv 13340]).2.2.cnt = 1 :=
  (C1_shutdown_once 14 1 (le_refl 1) none [mkEnv 13340]).2.1
    (by norm_num [monitor, cycle_mkEnv])

/-- C9 counterexample: one 13.9 V cycle against threshold 14 with
limit 1 invokes the shutdown collaborator in normal mode but not in
debug mode — so debug mode does change whether the collaborator is
called by the debounced decision. -/
theorem C9_debug_counterexample :
    (monitor false 14 1 ⟨0, none⟩ [mkEnv 13340]).1 = 1 ∧
    (monitor true 14 1 ⟨0, none⟩ [mkEnv 13340]).1 = 0 := by
  constructor
  · norm_num [monitor, cycle_mkEnv]
  · have h := monitorCycle_true_spec 14 1 ⟨0, none⟩ (mkEnv 13340)
    simp [monitor, h.2]

/-- C9 amended: with the debug flag enabled the loop never invokes the
shutdown collaborator and never changes the undervoltage counter — the
debounce branch is skipped entirely, every cycle only prints — and
`shutdown_system` itself issues the real shutdown command only when the
debug flag is off. -/
theorem C9_debug_no_shutdown (th : ℚ) (lim : ℕ) (st : MonitorState)
    (envs : List CycleEnv) :
    (monitor true th lim st envs).1 = 0 ∧
    (monitor true th lim st envs).2.1 = [] ∧
    (monitor true th lim st envs).2.2.cnt = st.cnt ∧
    shutdown_system true = false ∧ shutdown_system false = true := by
  induction envs generalizing st with
  | nil => exact ⟨rfl, rfl, rfl, rfl, rfl⟩
  | cons e rest ih =>
    have h := monitorCycle_true_spec th lim st e
    obtain ⟨ih1, ih2, ih3, _, _⟩ := ih (monitorCycle true th lim st e).1
    rw [h.1] at ih3
    simp only [monitor, h.2, Bool.false_eq_true, if_false]
    exact ⟨ih1, ih2, ih3, rfl, rfl⟩

/-- C10: a sysfs load file reading "4500/100" makes probe method 3
return 100, not the normalized 45 the spec (and the code's own comment)
call for — the adjustment `gpu_usage / 100.0 * 100.0` is an identity
and only the final cap at 100 applies.  For contents whose embedded
integer does not exceed 100 (the comment's own "45/100" example) the
value is returned unchanged. -/
theorem C10_slash_not_normalized :
    gpuMethod3 [FileProbe.content "4500/100".toList] = some 100 ∧
    gpuMethod3 [FileProbe.content "45/100".toList] = some 45 := by
  constructor
  · have hn : firstNat "4500/100".toList = some 4500 := by decide
    have hs : hasSlash "4500/100".toList = true := by decide
    simp only [gpuMethod3, hn, hs]
    norm_num
  · decide

end UVP
